import Mathlib

/-!
Verification of the llm-query-api repository core: the retrieval-answer
pipeline (`app/routers/rag.py`), the upstream error mapping
(`app/services/ragflow_client.py`), the LLM chat wrapper
(`app/services/llm_client.py`), the token-bucket rate limiter
(`mcp_server/rate_limiter.py`), and the validation and
rate-limit sequencing (`mcp_server/server.py`).

Python strings are modelled as lists of characters, Python floats as
rationals, JSON-absent fields as `Option`, and raised exceptions as
`Except` errors or explicit outcome constructors.
-/

namespace LlmQueryApi

/-- A Python string, modelled as a list of characters. -/
abbrev PyStr := List Char

/-- The Python `str.strip()` method: remove leading and trailing whitespace. -/
def pyStrip (s : PyStr) : PyStr :=
  ((s.dropWhile Char.isWhitespace).reverse.dropWhile Char.isWhitespace).reverse

/-- The Python `a or b` idiom on optional strings: `None` and `""` are falsy. -/
def pyOrStr : Option PyStr → Option PyStr → Option PyStr
  | some s, b => if s = [] then b else some s
  | none, b => b

/-! ## Upstream error mapping (`app/services/ragflow_client.py`) -/

/-- A raised `fastapi.HTTPException`, keeping status code and detail. -/
structure HTTPError where
  status_code : ℕ
  detail : String
deriving DecidableEq

/-- The fixed code-to-status table in `RAGFlowClient._map_error`
(source `status_map` dict, entries in source order). -/
def status_map : List (ℤ × ℕ) :=
  [(1001, 400), (1002, 400), (400, 400), (401, 401), (403, 403),
   (404, 404), (500, 502), (101, 409)]

/-- `status_map.get(code, status.HTTP_502_BAD_GATEWAY)` from
`RAGFlowClient._map_error`; the code is `payload.get("code")`, absent keys
default to 502. -/
def map_error_status : Option ℤ → ℕ
  | some c => (status_map.lookup c).getD 502
  | none => 502

/-- A RAGFlow JSON envelope as far as error mapping inspects it: the
application-level `code` and `message` fields, both possibly absent. -/
structure RAGFlowEnvelope where
  code : Option ℤ
  message : Option String
deriving DecidableEq

/-- `RAGFlowClient._map_error`: build the categorized `HTTPException`. -/
def map_error (p : RAGFlowEnvelope) : HTTPError :=
  ⟨map_error_status p.code, p.message.getD "RAGFlow request failed."⟩

/-- The envelope check in `RAGFlowClient._request_json`: if
`payload.get("code", 0) != 0` raise `_map_error(payload)`, else return the
payload. -/
def request_json (p : RAGFlowEnvelope) : Except HTTPError RAGFlowEnvelope :=
  if p.code.getD 0 ≠ 0 then Except.error (map_error p) else Except.ok p

/-! ## LLM chat wrapper (`app/services/llm_client.py`) -/

/-- The `message` part of one completion choice; `content` may be null. -/
structure ChatChoiceMessage where
  content : Option PyStr
deriving DecidableEq

/-- One element of the choice list returned by the completion backend. -/
structure ChatChoice where
  message : ChatChoiceMessage
deriving DecidableEq

/-- The completion response as `LLMClient.chat` inspects it. -/
structure ChatResponse where
  choices : List ChatChoice
deriving DecidableEq

/-- The post-call validation in `LLMClient.chat`: error on an empty choice
list, strip the content of the first choice (`(message.content or "").strip()`),
error if the stripped content is empty, otherwise return it. -/
def LLMClient.chat (resp : ChatResponse) : Except HTTPError PyStr :=
  match resp.choices with
  | [] => Except.error ⟨502, "LLM provider returned an empty response."⟩
  | choice :: _ =>
    if pyStrip (choice.message.content.getD []) = [] then
      Except.error ⟨502, "LLM provider returned an empty message."⟩
    else
      Except.ok (pyStrip (choice.message.content.getD []))

/-! ## Theorems for claims C4 and C5 -/

/-- C4: a non-zero application-level envelope code is mapped through the
fixed code-to-category table: 1001/1002/400 become 400 (bad request), 401
unauthorized, 403 forbidden, 404 not found, 101 becomes 409 (conflict), 500
becomes 502 (upstream failure); an envelope code of 404 surfaces as a
not-found error, and every code outside the table defaults to 502
(upstream failure). -/
theorem c4_error_code_mapping :
    (∀ p : RAGFlowEnvelope, p.code.getD 0 ≠ 0 →
      request_json p = Except.error ⟨map_error_status p.code, p.message.getD "RAGFlow request failed."⟩)
    ∧ map_error_status (some 404) = 404
    ∧ map_error_status (some 1001) = 400 ∧ map_error_status (some 1002) = 400
    ∧ map_error_status (some 400) = 400 ∧ map_error_status (some 401) = 401
    ∧ map_error_status (some 403) = 403 ∧ map_error_status (some 500) = 502
    ∧ map_error_status (some 101) = 409
    ∧ (∀ c : ℤ, c ∉ [1001, 1002, 400, 401, 403, 404, 500, 101] →
        map_error_status (some c) = 502) := by
  refine ⟨?_, by decide, by decide, by decide, by decide, by decide, by decide,
    by decide, by decide, ?_⟩
  · intro p hp
    simp only [request_json, map_error, if_pos hp]
  · intro c hc
    simp only [List.mem_cons, List.not_mem_nil, or_false, not_or] at hc
    obtain ⟨h1, h2, h3, h4, h5, h6, h7, h8⟩ := hc
    have e1 : (c == (1001 : ℤ)) = false := beq_eq_false_iff_ne.mpr h1
    have e2 : (c == (1002 : ℤ)) = false := beq_eq_false_iff_ne.mpr h2
    have e3 : (c == (400 : ℤ)) = false := beq_eq_false_iff_ne.mpr h3
    have e4 : (c == (401 : ℤ)) = false := beq_eq_false_iff_ne.mpr h4
    have e5 : (c == (403 : ℤ)) = false := beq_eq_false_iff_ne.mpr h5
    have e6 : (c == (404 : ℤ)) = false := beq_eq_false_iff_ne.mpr h6
    have e7 : (c == (500 : ℤ)) = false := beq_eq_false_iff_ne.mpr h7
    have e8 : (c == (101 : ℤ)) = false := beq_eq_false_iff_ne.mpr h8
    simp [map_error_status, status_map, List.lookup, e1, e2, e3, e4, e5, e6, e7, e8]

/-- Witness for C4 at concrete envelopes: code 404 maps to a 404 error and
the unknown code 777 maps to 502. -/
theorem c4_error_code_mapping_witness :
    ((⟨some 404, some "missing"⟩ : RAGFlowEnvelope).code.getD 0 ≠ 0
      ∧ request_json ⟨some 404, some "missing"⟩ = Except.error ⟨404, "missing"⟩)
    ∧ ((777 : ℤ) ∉ ([1001, 1002, 400, 401, 403, 404, 500, 101] : List ℤ)
      ∧ map_error_status (some 777) = 502) :=
  ⟨⟨by decide, c4_error_code_mapping.1 ⟨some 404, some "missing"⟩ (by decide)⟩,
   ⟨by decide, c4_error_code_mapping.2.2.2.2.2.2.2.2.2 777 (by decide)⟩⟩

/-- C5: the chat wrapper raises a 502 upstream-failure error when the
response has zero choices, and when the content of the first choice strips to
the empty string (empty or whitespace-only); a successfully returned
answer is never the empty string. -/
theorem c5_chat_rejects_empty (resp : ChatResponse) :
    (resp.choices = [] →
      LLMClient.chat resp = Except.error ⟨502, "LLM provider returned an empty response."⟩)
    ∧ (∀ ch rest, resp.choices = ch :: rest →
        pyStrip (ch.message.content.getD []) = [] →
        LLMClient.chat resp = Except.error ⟨502, "LLM provider returned an empty message."⟩)
    ∧ (∀ s, LLMClient.chat resp = Except.ok s → s ≠ []) := by
  refine ⟨?_, ?_, ?_⟩
  · intro h
    simp [LLMClient.chat, h]
  · intro ch rest hch hstrip
    simp [LLMClient.chat, hch, hstrip]
  · intro s hs hempty
    subst hempty
    cases hch : resp.choices with
    | nil => simp [LLMClient.chat, hch] at hs
    | cons ch rest =>
      by_cases hstrip : pyStrip (ch.message.content.getD []) = []
      · simp [LLMClient.chat, hch, hstrip] at hs
      · simp [LLMClient.chat, hch, hstrip] at hs

/-- Witness for C5: a response with one whitespace-only choice errors with
502, and the response `["ok"]` yields a non-empty answer. -/
theorem c5_chat_rejects_empty_witness :
    ((⟨[⟨⟨some [' ', '\t']⟩⟩]⟩ : ChatResponse).choices
        = ⟨⟨some [' ', '\t']⟩⟩ :: []
      ∧ pyStrip ((⟨⟨some [' ', '\t']⟩⟩ : ChatChoice).message.content.getD []) = []
      ∧ LLMClient.chat ⟨[⟨⟨some [' ', '\t']⟩⟩]⟩
        = Except.error ⟨502, "LLM provider returned an empty message."⟩)
    ∧ (LLMClient.chat ⟨[⟨⟨some ['o', 'k']⟩⟩]⟩ = Except.ok ['o', 'k']
      ∧ ['o', 'k'] ≠ ([] : PyStr)) :=
  ⟨⟨rfl, by decide,
    (c5_chat_rejects_empty ⟨[⟨⟨some [' ', '\t']⟩⟩]⟩).2.1 ⟨⟨some [' ', '\t']⟩⟩ [] rfl (by decide)⟩,
   ⟨rfl, (c5_chat_rejects_empty ⟨[⟨⟨some ['o', 'k']⟩⟩]⟩).2.2 ['o', 'k'] rfl⟩⟩

/-! ## Token bucket rate limiter (`mcp_server/rate_limiter.py`)

Python floats are modelled as rationals and the monotonic clock as an
explicit `now` argument threaded through each call. -/

/-- `TokenBucket` state: capacity, current tokens, refill interval, refill
rate (`capacity / refill_interval`), and last-refill timestamp. -/
structure TokenBucket where
  capacity : ℚ
  tokens : ℚ
  refill_interval : ℚ
  refill_rate : ℚ
  updated_at : ℚ
deriving DecidableEq

/-- `TokenBucket.__init__`: rejects non-positive capacity or interval
(`ValueError`, modelled as `none`), otherwise starts full. -/
def TokenBucket.init (capacity : ℤ) (refill_interval now : ℚ) : Option TokenBucket :=
  if capacity ≤ 0 then none
  else if refill_interval ≤ 0 then none
  else some ⟨(capacity : ℚ), (capacity : ℚ), refill_interval,
             (capacity : ℚ) / refill_interval, now⟩

/-- A fresh bucket of capacity `C` and interval `I` created at time `t0`,
the state `TokenBucket.init` produces on valid arguments. -/
def TokenBucket.fresh (C : ℕ) (I t0 : ℚ) : TokenBucket :=
  ⟨(C : ℚ), (C : ℚ), I, (C : ℚ) / I, t0⟩

/-- `TokenBucket._refill`: no-op when no time elapsed, otherwise add
`elapsed * refill_rate` tokens capped at `capacity` and move the
timestamp. -/
def TokenBucket.refill (b : TokenBucket) (now : ℚ) : TokenBucket :=
  if now - b.updated_at ≤ 0 then b
  else { b with updated_at := now,
                tokens := min b.capacity (b.tokens + (now - b.updated_at) * b.refill_rate) }

/-- Outcome of one `consume` call: success, or a raised
`RateLimitExceeded` carrying the retry-after hint; either way the bucket
state after the call is recorded. -/
inductive ConsumeOutcome where
  | ok (b : TokenBucket)
  | rateLimited (retry_after : Option ℚ) (b : TokenBucket)
deriving DecidableEq

/-- `TokenBucket.consume`: refill, then fail with
`(amount - tokens) / refill_rate` as retry hint when tokens are short,
else deduct. -/
def TokenBucket.consume (b : TokenBucket) (now amount : ℚ) : ConsumeOutcome :=
  if (b.refill now).tokens < amount then
    ConsumeOutcome.rateLimited
      (if 0 < b.refill_rate then some ((amount - (b.refill now).tokens) / b.refill_rate)
       else none)
      (b.refill now)
  else
    ConsumeOutcome.ok { b.refill now with tokens := (b.refill now).tokens - amount }

/-- `k` consecutive `consume(1)` calls at a fixed time `now`; `none` when
any of them raises. -/
def consumeSeq (b : TokenBucket) (now : ℚ) : ℕ → Option TokenBucket
  | 0 => some b
  | k + 1 =>
    match consumeSeq b now k with
    | none => none
    | some b2 =>
      match b2.consume now 1 with
      | ConsumeOutcome.ok b3 => some b3
      | ConsumeOutcome.rateLimited _ _ => none

lemma consumeSeq_fresh (C : ℕ) (I t0 : ℚ) (k : ℕ) (hk : k ≤ C) :
    consumeSeq (TokenBucket.fresh C I t0) t0 k
      = some { TokenBucket.fresh C I t0 with tokens := (C : ℚ) - k } := by
  induction k with
  | zero => simp [consumeSeq, TokenBucket.fresh]
  | succ k ih =>
    have hk' : k ≤ C := Nat.le_of_succ_le hk
    rw [consumeSeq, ih hk']
    have hrefill : ({ TokenBucket.fresh C I t0 with tokens := (C : ℚ) - k }).refill t0
        = { TokenBucket.fresh C I t0 with tokens := (C : ℚ) - k } := by
      simp [TokenBucket.refill, TokenBucket.fresh]
    have hcast : (k : ℚ) + 1 ≤ (C : ℚ) := by exact_mod_cast hk
    have htok : ¬ ((C : ℚ) - k < 1) := by linarith
    simp only [TokenBucket.consume, hrefill, htok, if_false, if_neg htok]
    have : (C : ℚ) - k - 1 = (C : ℚ) - (k + 1 : ℕ) := by push_cast; ring
    simp [this]

lemma consumeSeq_fresh_exhausted (C : ℕ) (I t0 : ℚ) :
    consumeSeq (TokenBucket.fresh C I t0) t0 (C + 1) = none := by
  rw [consumeSeq, consumeSeq_fresh C I t0 C le_rfl]
  have hzero : (C : ℚ) - C = 0 := by ring
  rw [hzero]
  have hrefill : ({ TokenBucket.fresh C I t0 with tokens := (0 : ℚ) }).refill t0
      = { TokenBucket.fresh C I t0 with tokens := (0 : ℚ) } := by
    simp [TokenBucket.refill, TokenBucket.fresh]
  have htok : (({ TokenBucket.fresh C I t0 with tokens := (0 : ℚ) }).refill t0).tokens < 1 := by
    rw [hrefill]; norm_num
  simp [TokenBucket.consume, hrefill, htok]

lemma consumeSeq_after_interval (C : ℕ) (I t0 : ℚ) (hC : 1 ≤ C) (hI : 0 < I)
    (k : ℕ) (hk1 : 1 ≤ k) (hk : k ≤ C) :
    consumeSeq { TokenBucket.fresh C I t0 with tokens := (C : ℚ) - C } (t0 + I) k
      = some { TokenBucket.fresh C I (t0 + I) with tokens := (C : ℚ) - k } := by
  induction k with
  | zero => exact absurd hk1 (by omega)
  | succ k ih =>
    rcases Nat.eq_zero_or_pos k with hk0 | hkpos
    · subst hk0
      rw [consumeSeq]
      have h0 : consumeSeq { TokenBucket.fresh C I t0 with tokens := (C : ℚ) - C } (t0 + I) 0
          = some { TokenBucket.fresh C I t0 with tokens := (C : ℚ) - C } := rfl
      rw [h0]
      have hIne : I ≠ 0 := ne_of_gt hI
      have helapsed : ¬ (t0 + I - t0 ≤ 0) := by
        intro h; apply absurd hI; simp only [not_lt]; linarith
      have h2 : I * ((C : ℚ) / I) = (C : ℚ) := by
        rw [mul_comm]; exact div_mul_cancel₀ _ hIne
      have h2' : ((C : ℚ) / I) * I = (C : ℚ) := div_mul_cancel₀ _ hIne
      have hrefill : ({ TokenBucket.fresh C I t0 with tokens := (C : ℚ) - C }).refill (t0 + I)
          = { TokenBucket.fresh C I (t0 + I) with tokens := (C : ℚ) } := by
        simp only [TokenBucket.refill, TokenBucket.fresh, helapsed, if_neg helapsed]
        simp [h2, h2']
      have hCge : (1 : ℚ) ≤ (C : ℚ) := by exact_mod_cast hC
      have htok : ¬ ((C : ℚ) < 1) := by linarith
      simp only [TokenBucket.consume, hrefill, htok, if_neg htok]
      have : (C : ℚ) - 1 = (C : ℚ) - ((0 : ℕ) + 1 : ℕ) := by push_cast; ring
      simp [this]
    · have hk' : k ≤ C := Nat.le_of_succ_le hk
      rw [consumeSeq, ih hkpos hk']
      have hrefill : ({ TokenBucket.fresh C I (t0 + I) with tokens := (C : ℚ) - k }).refill (t0 + I)
          = { TokenBucket.fresh C I (t0 + I) with tokens := (C : ℚ) - k } := by
        simp [TokenBucket.refill, TokenBucket.fresh]
      have hcast : (k : ℚ) + 1 ≤ (C : ℚ) := by exact_mod_cast hk
      have htok : ¬ ((C : ℚ) - k < 1) := by linarith
      simp only [TokenBucket.consume, hrefill, htok, if_neg htok]
      have : (C : ℚ) - k - 1 = (C : ℚ) - (k + 1 : ℕ) := by push_cast; ring
      simp [this]

/-- C2: a freshly created bucket of capacity `C` and interval `I` permits
exactly `C` consecutive `consume(1)` calls with no time elapsing — the
`(C+1)`-th raises a rate-limit error — and after waiting the full
interval `I` it again permits `C` consumptions. -/
theorem c2_fresh_bucket_capacity_cycle (C : ℕ) (I t0 : ℚ) (hC : 1 ≤ C) (hI : 0 < I) :
    TokenBucket.init (C : ℤ) I t0 = some (TokenBucket.fresh C I t0)
    ∧ (consumeSeq (TokenBucket.fresh C I t0) t0 C).isSome = true
    ∧ consumeSeq (TokenBucket.fresh C I t0) t0 (C + 1) = none
    ∧ ∀ b1, consumeSeq (TokenBucket.fresh C I t0) t0 C = some b1 →
        (consumeSeq b1 (t0 + I) C).isSome = true := by
  have hCpos : ¬ ((C : ℤ) ≤ 0) := by exact_mod_cast Nat.not_succ_le_zero (C - 1) ∘ fun h => by omega
  refine ⟨?_, ?_, consumeSeq_fresh_exhausted C I t0, ?_⟩
  · have h1 : ¬ ((C : ℤ) ≤ 0) := by
      simp only [not_le]
      exact_mod_cast hC
    have h2 : ¬ (I ≤ 0) := not_le.mpr hI
    simp [TokenBucket.init, TokenBucket.fresh, h1, h2]
  · rw [consumeSeq_fresh C I t0 C le_rfl]; rfl
  · intro b1 hb1
    rw [consumeSeq_fresh C I t0 C le_rfl] at hb1
    cases hb1
    rw [consumeSeq_after_interval C I t0 hC hI C hC le_rfl]
    rfl

/-- Witness for C2 at capacity 2, interval 1, creation time 0. -/
theorem c2_fresh_bucket_capacity_cycle_witness :
    1 ≤ 2 ∧ (0 : ℚ) < 1
    ∧ (TokenBucket.init (2 : ℤ) 1 0 = some (TokenBucket.fresh 2 1 0)
      ∧ (consumeSeq (TokenBucket.fresh 2 1 0) 0 2).isSome = true
      ∧ consumeSeq (TokenBucket.fresh 2 1 0) 0 (2 + 1) = none
      ∧ ∀ b1, consumeSeq (TokenBucket.fresh 2 1 0) 0 2 = some b1 →
          (consumeSeq b1 (0 + 1) 2).isSome = true) :=
  ⟨by norm_num, by norm_num, c2_fresh_bucket_capacity_cycle 2 1 0 (by norm_num) (by norm_num)⟩

/-- C8: when the post-refill token count is short of `amount`, `consume`
raises a rate-limit error whose retry-after hint is
`(amount - tokens) / refill_rate`, and the failed call never decreases
the token count (only the refill ran; deduction happens only on
success). -/
theorem c8_failed_consume_retry_hint (b : TokenBucket) (now amount : ℚ)
    (hrate : 0 < b.refill_rate) (hcap : b.tokens ≤ b.capacity)
    (hlow : (b.refill now).tokens < amount) :
    b.consume now amount
      = ConsumeOutcome.rateLimited
          (some ((amount - (b.refill now).tokens) / b.refill_rate)) (b.refill now)
    ∧ b.tokens ≤ (b.refill now).tokens := by
  constructor
  · simp [TokenBucket.consume, hlow, hrate]
  · unfold TokenBucket.refill
    by_cases h : now - b.updated_at ≤ 0
    · simp [h]
    · simp only [h, if_neg h]
      have hgt : 0 < now - b.updated_at := lt_of_not_le h
      have hpos : 0 ≤ (now - b.updated_at) * b.refill_rate :=
        le_of_lt (mul_pos hgt hrate)
      exact le_min hcap (by linarith)

/-- An exhausted bucket of capacity 10, interval 60, used as the concrete
input of the C8 witness. -/
def exampleBucket : TokenBucket :=
  ⟨10, 0, 60, 1 / 6, 0⟩

/-- Witness for C8: an exhausted capacity-10 bucket refilling one token
every six seconds rejects `consume(1)` with retry-after 6. -/
theorem c8_failed_consume_retry_hint_witness :
    ((0 : ℚ) < exampleBucket.refill_rate
      ∧ exampleBucket.tokens ≤ exampleBucket.capacity
      ∧ (exampleBucket.refill 0).tokens < 1)
    ∧ (exampleBucket.consume 0 1
        = ConsumeOutcome.rateLimited
            (some ((1 - (exampleBucket.refill 0).tokens) / exampleBucket.refill_rate))
            (exampleBucket.refill 0)
      ∧ exampleBucket.tokens ≤ (exampleBucket.refill 0).tokens) :=
  ⟨⟨by norm_num [exampleBucket], by norm_num [exampleBucket],
    by norm_num [exampleBucket, TokenBucket.refill]⟩,
   c8_failed_consume_retry_hint exampleBucket 0 1
     (by norm_num [exampleBucket])
     (by norm_num [exampleBucket])
     (by norm_num [exampleBucket, TokenBucket.refill])⟩

/-! ## MCP tool gateway (`mcp_server/server.py`)

The handlers are modelled up to the upstream call: argument validation,
`top_k` resolution (`top_k or default`), and the per-tool rate limit, in
the order the source executes them. Both validation failures and the
rate-limit rejection are Python `ValueError`s; the model keeps them as
distinct constructors so the error category stays observable. -/

/-- An error raised by a tool handler before the upstream call. -/
inductive ToolError where
  | invalidArgument (msg : String)
  | rateLimited (tool : String) (retry_after : Option ℚ)
deriving DecidableEq

/-- `MCPServerApplication._validate_dataset_id`: strip, require non-empty,
require a full match of the configured identifier pattern (the pattern is
abstracted as the predicate `patternOk`). -/
def validate_dataset_id (patternOk : PyStr → Bool) (dataset_id : PyStr) :
    Except ToolError PyStr :=
  if pyStrip dataset_id = [] then
    Except.error (ToolError.invalidArgument "dataset_id is required")
  else if patternOk (pyStrip dataset_id) = false then
    Except.error (ToolError.invalidArgument "dataset_id contains unsupported characters")
  else Except.ok (pyStrip dataset_id)

/-- `MCPServerApplication._validate_query`: strip, require non-empty,
require length at most `max_query_length`. -/
def validate_query (max_query_length : ℕ) (query : PyStr) : Except ToolError PyStr :=
  if pyStrip query = [] then
    Except.error (ToolError.invalidArgument "Query text is required.")
  else if max_query_length < (pyStrip query).length then
    Except.error (ToolError.invalidArgument
      ("Query exceeds maximum length of " ++ toString max_query_length ++ " characters."))
  else Except.ok (pyStrip query)

/-- `MCPServerApplication._normalize_top_k`: error on a non-positive
value, otherwise cap at 1024. -/
def normalize_top_k (value : ℤ) : Except ToolError ℤ :=
  if value ≤ 0 then
    Except.error (ToolError.invalidArgument "top_k must be greater than zero")
  else Except.ok (min value 1024)

/-- The Python `x or d` idiom on an optional integer: `None` and `0` are falsy
and give the default. This models `top_k or self.settings.search_top_k`
at the `_handle_search_terms` call site. -/
def pyOrInt : Option ℤ → ℤ → ℤ
  | some v, d => if v = 0 then d else v
  | none, d => d

/-- `MCPServerApplication._enforce_rate_limit`: consume one token from the
bucket of the tool; on `RateLimitExceeded` re-raise as a rate-limit `ValueError`
carrying the retry-after hint. -/
def enforce_rate_limit (tool : String) (b : TokenBucket) (now : ℚ) :
    Except ToolError TokenBucket :=
  match b.consume now 1 with
  | ConsumeOutcome.ok b2 => Except.ok b2
  | ConsumeOutcome.rateLimited retry _ => Except.error (ToolError.rateLimited tool retry)

/-- The default `dataset_id_pattern`
`^[A-Za-z0-9][A-Za-z0-9._:-]{0,127}$` from `mcp_server/config.py`. -/
def defaultDatasetIdOk : PyStr → Bool
  | [] => false
  | c :: rest =>
    c.isAlphanum && decide (rest.length ≤ 127)
      && rest.all (fun ch => ch.isAlphanum || ch = '.' || ch = '_' || ch = ':' || ch = '-')

/-- `MCPServerApplication._handle_get_glossary` up to the upstream fetch:
validate the dataset id first, then enforce the rate limit (source lines
148-150). -/
def handle_get_glossary (patternOk : PyStr → Bool) (bucket : TokenBucket) (now : ℚ)
    (dataset_id : PyStr) : Except ToolError (PyStr × TokenBucket) :=
  match validate_dataset_id patternOk dataset_id with
  | Except.error e => Except.error e
  | Except.ok vid =>
    match enforce_rate_limit "get_glossary" bucket now with
    | Except.error e => Except.error e
    | Except.ok b2 => Except.ok (vid, b2)

/-- The values `_handle_search_terms` has computed when it reaches the
upstream call. -/
structure SearchPre where
  dataset_id : PyStr
  query : PyStr
  top_k : ℤ
  bucket : TokenBucket
deriving DecidableEq

/-- `MCPServerApplication._handle_search_terms` up to the upstream call:
validate the dataset id, validate the query, resolve and normalize
`top_k` (`top_k or self.settings.search_top_k`), then enforce the rate
limit (source lines 192-197). -/
def handle_search_terms (patternOk : PyStr → Bool) (max_query_length : ℕ)
    (search_top_k : ℤ) (bucket : TokenBucket) (now : ℚ)
    (dataset_id query : PyStr) (top_k : Option ℤ) : Except ToolError SearchPre :=
  match validate_dataset_id patternOk dataset_id with
  | Except.error e => Except.error e
  | Except.ok vid =>
    match validate_query max_query_length query with
    | Except.error e => Except.error e
    | Except.ok vq =>
      match normalize_top_k (pyOrInt top_k search_top_k) with
      | Except.error e => Except.error e
      | Except.ok k =>
        match enforce_rate_limit "search_terms" bucket now with
        | Except.error e => Except.error e
        | Except.ok b2 => Except.ok ⟨vid, vq, k, b2⟩

/-- C6 counterexample: with the default pattern and settings, an
exhausted `search_terms` bucket (capacity 10, zero tokens, retry-after 6)
and the invalid dataset id `"bad id!"`, the invocation fails with the
dataset-id validation error, not with a rate-limit error — the claim says
the rate limit is enforced before input validation, but the source
validates first. -/
theorem c6_invalid_args_exhausted_bucket_gives_validation_error :
    enforce_rate_limit "search_terms" exampleBucket 0
      = Except.error (ToolError.rateLimited "search_terms" (some 6))
    ∧ handle_search_terms defaultDatasetIdOk 256 8 exampleBucket 0
        ("bad id!".toList) ("term".toList) none
      = Except.error (ToolError.invalidArgument "dataset_id contains unsupported characters")
    ∧ ∀ tool retry, handle_search_terms defaultDatasetIdOk 256 8 exampleBucket 0
        ("bad id!".toList) ("term".toList) none
      ≠ Except.error (ToolError.rateLimited tool retry) := by
  have heq : handle_search_terms defaultDatasetIdOk 256 8 exampleBucket 0
        ("bad id!".toList) ("term".toList) none
      = Except.error (ToolError.invalidArgument "dataset_id contains unsupported characters") := by
    rfl
  have hr : exampleBucket.refill 0 = exampleBucket := by
    norm_num [TokenBucket.refill, exampleBucket]
  have hcons : exampleBucket.consume 0 1
      = ConsumeOutcome.rateLimited (some 6) exampleBucket := by
    simp only [TokenBucket.consume, hr]
    norm_num [exampleBucket]
  refine ⟨by simp [enforce_rate_limit, hcons], heq, ?_⟩
  intro tool retry h
  rw [heq] at h
  simp at h

/-- C6 amended: per tool invocation the gateway validates inputs before
enforcing the per-tool rate limit, so an invocation whose dataset id is
invalid fails with that validation error for every bucket state — also
when the bucket is exhausted — and never with a rate-limit error. -/
theorem c6_amended_validation_precedes_rate_limit (patternOk : PyStr → Bool)
    (max_query_length : ℕ) (search_top_k : ℤ) (bucket : TokenBucket) (now : ℚ)
    (dataset_id query : PyStr) (top_k : Option ℤ) (e : ToolError)
    (hval : validate_dataset_id patternOk dataset_id = Except.error e) :
    handle_search_terms patternOk max_query_length search_top_k bucket now
      dataset_id query top_k = Except.error e
    ∧ handle_get_glossary patternOk bucket now dataset_id = Except.error e := by
  constructor
  · simp [handle_search_terms, hval]
  · simp [handle_get_glossary, hval]

/-- Witness for the amended C6 at the concrete input of the counterexample. -/
theorem c6_amended_validation_precedes_rate_limit_witness :
    validate_dataset_id defaultDatasetIdOk ("bad id!".toList)
      = Except.error (ToolError.invalidArgument "dataset_id contains unsupported characters")
    ∧ (handle_search_terms defaultDatasetIdOk 256 8 exampleBucket 0
        ("bad id!".toList) ("term".toList) none
      = Except.error (ToolError.invalidArgument "dataset_id contains unsupported characters")
    ∧ handle_get_glossary defaultDatasetIdOk exampleBucket 0 ("bad id!".toList)
      = Except.error (ToolError.invalidArgument "dataset_id contains unsupported characters")) :=
  ⟨rfl, c6_amended_validation_precedes_rate_limit defaultDatasetIdOk 256 8 exampleBucket 0
    ("bad id!".toList) ("term".toList) none
    (ToolError.invalidArgument "dataset_id contains unsupported characters") rfl⟩

/-- A full capacity-10 bucket used by the C7 counterexample. -/
def fullBucket : TokenBucket :=
  ⟨10, 10, 60, 1 / 6, 0⟩

/-- C7 counterexample: a caller-supplied `top_k = 0` does not fail with a
validation error — `top_k or self.settings.search_top_k` treats 0 as
falsy, so 0 is silently replaced by the default (8) and the invocation
proceeds. -/
theorem c7_top_k_zero_does_not_error :
    handle_search_terms defaultDatasetIdOk 256 8 fullBucket 0
        ("dataset-1".toList) ("term".toList) (some 0)
      = Except.ok ⟨"dataset-1".toList, "term".toList, 8, ⟨10, 9, 60, 1 / 6, 0⟩⟩
    ∧ ∀ msg, handle_search_terms defaultDatasetIdOk 256 8 fullBucket 0
        ("dataset-1".toList) ("term".toList) (some 0)
      ≠ Except.error (ToolError.invalidArgument msg) := by
  have hr : fullBucket.refill 0 = fullBucket := by
    norm_num [TokenBucket.refill, fullBucket]
  have hcons : fullBucket.consume 0 1 = ConsumeOutcome.ok ⟨10, 9, 60, 1 / 6, 0⟩ := by
    simp only [TokenBucket.consume, hr]
    norm_num [fullBucket]
  have h1 : validate_dataset_id defaultDatasetIdOk ['d', 'a', 't', 'a', 's', 'e', 't', '-', '1']
      = Except.ok ['d', 'a', 't', 'a', 's', 'e', 't', '-', '1'] := rfl
  have h2 : validate_query 256 ['t', 'e', 'r', 'm'] = Except.ok ['t', 'e', 'r', 'm'] := rfl
  have hmin : min (8 : ℤ) 1024 = 8 := by omega
  have h3 : normalize_top_k (pyOrInt (some 0) 8) = Except.ok 8 := by
    simp [pyOrInt, normalize_top_k, hmin]
  have heq : handle_search_terms defaultDatasetIdOk 256 8 fullBucket 0
        ("dataset-1".toList) ("term".toList) (some 0)
      = Except.ok ⟨"dataset-1".toList, "term".toList, 8, ⟨10, 9, 60, 1 / 6, 0⟩⟩ := by
    simp [handle_search_terms, h1, h2, h3, enforce_rate_limit, hcons]
  refine ⟨heq, ?_⟩
  intro msg h
  rw [heq] at h
  simp at h

/-- C7 amended: a caller-supplied negative `top_k` fails with a
validation error; a caller-supplied 0 is falsy under Python `or` and is
silently replaced by the configured default (no error when the default is
positive); a positive value is silently capped at 1024. -/
theorem c7_amended_top_k_handling (v d : ℤ) :
    (v < 0 → normalize_top_k (pyOrInt (some v) d)
      = Except.error (ToolError.invalidArgument "top_k must be greater than zero"))
    ∧ pyOrInt (some 0) d = d
    ∧ (0 < v → normalize_top_k (pyOrInt (some v) d) = Except.ok (min v 1024))
    ∧ (0 < d → normalize_top_k (pyOrInt (some 0) d) = Except.ok (min d 1024))
    ∧ (∀ patternOk maxq (bucket : TokenBucket) (now : ℚ) (id q : PyStr) vid vq,
        validate_dataset_id patternOk id = Except.ok vid →
        validate_query maxq q = Except.ok vq →
        v < 0 →
        handle_search_terms patternOk maxq d bucket now id q (some v)
          = Except.error (ToolError.invalidArgument "top_k must be greater than zero")) := by
  refine ⟨?_, rfl, ?_, ?_, ?_⟩
  · intro hv
    have hne : v ≠ 0 := ne_of_lt hv
    simp [pyOrInt, normalize_top_k, hne, le_of_lt hv]
  · intro hv
    have hne : v ≠ 0 := ne_of_gt hv
    simp [pyOrInt, normalize_top_k, hne, not_le.mpr hv]
  · intro hd
    simp [pyOrInt, normalize_top_k, not_le.mpr hd]
  · intro patternOk maxq bucket now id q vid vq hid hq hv
    have hne : v ≠ 0 := ne_of_lt hv
    simp [handle_search_terms, hid, hq, pyOrInt, normalize_top_k, hne, le_of_lt hv]

/-- Witness for the amended C7 at `top_k = -3` and default 8: negative
errors, zero falls back to the default, positive is capped. -/
theorem c7_amended_top_k_handling_witness :
    ((-3 : ℤ) < 0
      ∧ normalize_top_k (pyOrInt (some (-3)) 8)
        = Except.error (ToolError.invalidArgument "top_k must be greater than zero"))
    ∧ pyOrInt (some 0) 8 = 8
    ∧ ((0 : ℤ) < 8 ∧ normalize_top_k (pyOrInt (some 0) 8) = Except.ok (min 8 1024))
    ∧ (validate_dataset_id defaultDatasetIdOk ("dataset-1".toList)
        = Except.ok ("dataset-1".toList)
      ∧ validate_query 256 ("term".toList) = Except.ok ("term".toList)
      ∧ handle_search_terms defaultDatasetIdOk 256 8 fullBucket 0
          ("dataset-1".toList) ("term".toList) (some (-3))
        = Except.error (ToolError.invalidArgument "top_k must be greater than zero")) :=
  ⟨⟨by decide, (c7_amended_top_k_handling (-3) 8).1 (by decide)⟩,
   (c7_amended_top_k_handling 0 8).2.1,
   ⟨by decide, (c7_amended_top_k_handling 0 8).2.2.2.1 (by decide)⟩,
   ⟨rfl, rfl,
    (c7_amended_top_k_handling (-3) 8).2.2.2.2 defaultDatasetIdOk 256 fullBucket 0
      ("dataset-1".toList) ("term".toList) ("dataset-1".toList) ("term".toList)
      rfl rfl (by decide)⟩⟩

/-! ## Answer pipeline (`app/routers/rag.py`)

A retrieved chunk is a JSON object; every field the route reads through
`chunk.get(...)` is modelled as an `Option`. The stable Python
`list.sort(key=..., reverse=True)` is modelled by insertion sort under
the non-strict descending-similarity relation, which is the same stable
descending sort. -/

/-- One retrieval chunk as `rag_answer` reads it. -/
structure RetrievedChunk where
  id : Option PyStr := none
  content : Option PyStr := none
  similarity : Option ℚ := none
  document_name : Option PyStr := none
  document_keyword : Option PyStr := none
  docnm_kwd : Option PyStr := none
deriving DecidableEq

/-- `chunk.get("similarity", 0.0)`: a missing similarity counts as 0. -/
def simOf (c : RetrievedChunk) : ℚ :=
  c.similarity.getD 0

/-- The filter step of `rag_answer`: keep chunks with
`chunk.get("similarity", 0.0) >= similarity_threshold`. -/
def filterBySim (threshold : ℚ) (chunks : List RetrievedChunk) : List RetrievedChunk :=
  chunks.filter (fun c => decide (threshold ≤ simOf c))

/-- The descending-similarity order used by
`filtered.sort(key=..., reverse=True)`: `a` may come before `b` when its
similarity is at least that of `b`. -/
def simGE (a b : RetrievedChunk) : Prop :=
  simOf b ≤ simOf a

instance : DecidableRel simGE :=
  fun a b => inferInstanceAs (Decidable (simOf b ≤ simOf a))

instance : IsTotal RetrievedChunk simGE :=
  ⟨fun a b => le_total (simOf b) (simOf a)⟩

instance : IsTrans RetrievedChunk simGE :=
  ⟨fun _ _ _ hab hbc => le_trans hbc hab⟩

/-- The sort step of `rag_answer`: stable sort by similarity descending. -/
def sortBySim (chunks : List RetrievedChunk) : List RetrievedChunk :=
  List.insertionSort simGE chunks

/-- Filter, sort, take: `rag_answer` lines 37-44
(`filtered = [...]; filtered.sort(...); selected = filtered[:top_n]`).
`top_n` is a natural number, as the request schema enforces
`top_n >= 1`. -/
def selectChunks (threshold : ℚ) (top_n : ℕ) (chunks : List RetrievedChunk) :
    List RetrievedChunk :=
  (sortBySim (filterBySim threshold chunks)).take top_n

/-- One entry of the `references` list of the response. -/
structure RAGAnswerReference where
  chunk_index : ℕ
  chunk_id : PyStr
  document_name : Option PyStr
  similarity : Option ℚ
deriving DecidableEq

/-- The reference built for an included chunk (`rag_answer` lines 63-74):
`chunk.get("id", "")` and the `document_name or document_keyword or
docnm_kwd` fallback chain. -/
def mkReference (idx : ℕ) (c : RetrievedChunk) : RAGAnswerReference :=
  ⟨idx, c.id.getD [], pyOrStr c.document_name (pyOrStr c.document_keyword c.docnm_kwd),
   c.similarity⟩

/-- `if len(content) > remaining_chars: content = content[:remaining_chars]`. -/
def truncTo (remaining : ℤ) (s : PyStr) : PyStr :=
  if remaining < (s.length : ℤ) then s.take remaining.toNat else s

/-- The context-builder loop of `rag_answer` (lines 50-75): walk the
selected chunks; break when the remaining budget is non-positive; skip
chunks whose stripped content is empty; truncate to the remaining budget;
assign `chunk_index = len(context_pairs) + 1` (`idx` carries
`len(context_pairs)`); deduct the included length. Returns the
`context_pairs` and `references` lists. -/
def buildContext (idx : ℕ) (remaining : ℤ) :
    List RetrievedChunk → List (ℕ × PyStr) × List RAGAnswerReference
  | [] => ([], [])
  | c :: rest =>
    if remaining ≤ 0 then ([], [])
    else if pyStrip (c.content.getD []) = [] then buildContext idx remaining rest
    else
      ((idx + 1, truncTo remaining (pyStrip (c.content.getD [])))
          :: (buildContext (idx + 1)
                (remaining - (truncTo remaining (pyStrip (c.content.getD []))).length) rest).1,
       mkReference (idx + 1) c
          :: (buildContext (idx + 1)
                (remaining - (truncTo remaining (pyStrip (c.content.getD []))).length) rest).2)

/-- The whole post-retrieval context assembly of `rag_answer`:
filter, sort, take `top_n`, then build the budgeted context. -/
def ragAnswerContext (chunks : List RetrievedChunk) (threshold : ℚ) (top_n : ℕ)
    (max_context_chars : ℤ) : List (ℕ × PyStr) × List RAGAnswerReference :=
  buildContext 0 max_context_chars (selectChunks threshold top_n chunks)

/-- C9: the filter/sort/take transformation of the pipeline is
idempotent — re-running it on its own output returns the output
unchanged. -/
theorem c9_select_idempotent (threshold : ℚ) (top_n : ℕ) (chunks : List RetrievedChunk) :
    selectChunks threshold top_n (selectChunks threshold top_n chunks)
      = selectChunks threshold top_n chunks := by
  have hmem : ∀ c ∈ selectChunks threshold top_n chunks, decide (threshold ≤ simOf c) = true := by
    intro c hc
    have h1 : c ∈ sortBySim (filterBySim threshold chunks) := List.mem_of_mem_take hc
    have h2 : c ∈ filterBySim threshold chunks :=
      ((List.perm_insertionSort simGE (filterBySim threshold chunks)).mem_iff).mp h1
    exact (List.mem_filter.mp h2).2
  have hfilter : filterBySim threshold (selectChunks threshold top_n chunks)
      = selectChunks threshold top_n chunks :=
    List.filter_eq_self.mpr hmem
  have hsorted : List.Sorted simGE (selectChunks threshold top_n chunks) :=
    (List.sorted_insertionSort simGE (filterBySim threshold chunks)).sublist
      (List.take_sublist top_n _)
  have hsort : sortBySim (selectChunks threshold top_n chunks)
      = selectChunks threshold top_n chunks :=
    hsorted.insertionSort_eq
  have hlen : (selectChunks threshold top_n chunks).length ≤ top_n := by
    have := List.length_take top_n (sortBySim (filterBySim threshold chunks))
    simp only [selectChunks]
    omega
  calc selectChunks threshold top_n (selectChunks threshold top_n chunks)
      = (sortBySim (filterBySim threshold (selectChunks threshold top_n chunks))).take top_n := rfl
    _ = (sortBySim (selectChunks threshold top_n chunks)).take top_n := by rw [hfilter]
    _ = (selectChunks threshold top_n chunks).take top_n := by rw [hsort]
    _ = selectChunks threshold top_n chunks := List.take_of_length_le hlen

/-- C10: a chunk with no similarity field is treated as similarity 0.0 in
both the filter and the sort: its effective similarity is 0; the filter
drops it for every strictly positive threshold; at threshold 0.0 it is
kept; and all sort-order comparisons involving it are exactly the
comparisons of the value 0. -/
theorem c10_missing_similarity_is_zero (c : RetrievedChunk) (h : c.similarity = none) :
    simOf c = 0
    ∧ (∀ threshold : ℚ, 0 < threshold →
        ∀ chunks : List RetrievedChunk, c ∉ filterBySim threshold chunks)
    ∧ (∀ chunks : List RetrievedChunk, c ∈ chunks → c ∈ filterBySim 0 chunks)
    ∧ (∀ x : RetrievedChunk, (simGE c x ↔ simOf x ≤ 0) ∧ (simGE x c ↔ 0 ≤ simOf x)) := by
  have hsim : simOf c = 0 := by simp [simOf, h]
  refine ⟨hsim, ?_, ?_, ?_⟩
  · intro threshold hpos chunks hc
    have := (List.mem_filter.mp hc).2
    rw [decide_eq_true_eq, hsim] at this
    exact absurd hpos (not_lt.mpr this)
  · intro chunks hc
    exact List.mem_filter.mpr ⟨hc, by rw [decide_eq_true_eq, hsim]⟩
  · intro x
    constructor
    · simp [simGE, hsim]
    · simp [simGE, hsim]

/-- Witness for C10 at a similarity-free chunk: dropped at threshold 1/5,
kept at threshold 0. -/
theorem c10_missing_similarity_is_zero_witness :
    ({ content := some ['x'] } : RetrievedChunk).similarity = none
    ∧ simOf { content := some ['x'] } = 0
    ∧ ((0 : ℚ) < 1 / 5
      ∧ { content := some ['x'] }
          ∉ filterBySim (1 / 5) [{ content := some ['x'] }])
    ∧ ({ content := some ['x'] } ∈ ([{ content := some ['x'] }] : List RetrievedChunk)
      ∧ { content := some ['x'] } ∈ filterBySim 0 [{ content := some ['x'] }]) :=
  ⟨rfl,
   (c10_missing_similarity_is_zero { content := some ['x'] } rfl).1,
   ⟨by norm_num,
    (c10_missing_similarity_is_zero { content := some ['x'] } rfl).2.1 (1 / 5) (by norm_num)
      [{ content := some ['x'] }]⟩,
   ⟨List.mem_singleton.mpr rfl,
    (c10_missing_similarity_is_zero { content := some ['x'] } rfl).2.2.1
      [{ content := some ['x'] }] (List.mem_singleton.mpr rfl)⟩⟩

lemma truncTo_length_le (remaining : ℤ) (h : 0 ≤ remaining) (s : PyStr) :
    ((truncTo remaining s).length : ℤ) ≤ remaining := by
  unfold truncTo
  by_cases hc : remaining < (s.length : ℤ)
  · rw [if_pos hc, List.length_take]
    omega
  · rw [if_neg hc]
    omega

lemma buildContext_spec (chunks : List RetrievedChunk) : ∀ (idx : ℕ) (B : ℤ),
    ((buildContext idx B chunks).1.map Prod.fst
        = List.range' (idx + 1) (buildContext idx B chunks).1.length)
    ∧ ((buildContext idx B chunks).2.map RAGAnswerReference.chunk_index
        = (buildContext idx B chunks).1.map Prod.fst)
    ∧ ((buildContext idx B chunks).2.length = (buildContext idx B chunks).1.length)
    ∧ (((buildContext idx B chunks).1.map (fun p => (p.2.length : ℤ))).sum ≤ max B 0) := by
  induction chunks with
  | nil =>
    intro idx B
    refine ⟨rfl, rfl, rfl, ?_⟩
    simp only [buildContext, List.map_nil, List.sum_nil]
    exact le_max_right B 0
  | cons c rest ih =>
    intro idx B
    by_cases hB : B ≤ 0
    · simp only [buildContext, if_pos hB]
      refine ⟨rfl, rfl, rfl, ?_⟩
      simp only [List.map_nil, List.sum_nil]
      exact le_max_right B 0
    · by_cases hc : pyStrip (c.content.getD []) = []
      · simp only [buildContext, if_neg hB, if_pos hc]
        exact ih idx B
      · have hB0 : 0 ≤ B := by omega
        have hlen : ((truncTo B (pyStrip (c.content.getD []))).length : ℤ) ≤ B :=
          truncTo_length_le B hB0 _
        obtain ⟨ih1, ih2, ih3, ih4⟩ :=
          ih (idx + 1) (B - (truncTo B (pyStrip (c.content.getD []))).length)
        simp only [buildContext, if_neg hB, if_neg hc]
        refine ⟨?_, ?_, ?_, ?_⟩
        · simp only [List.map_cons, List.length_cons, List.range']
          rw [ih1]
        · simp only [List.map_cons, mkReference]
          rw [ih2]
        · simp only [List.length_cons]
          rw [ih3]
        · simp only [List.map_cons, List.sum_cons]
          have hmax : max (B - (truncTo B (pyStrip (c.content.getD []))).length) 0
              = B - (truncTo B (pyStrip (c.content.getD []))).length := by omega
          rw [hmax] at ih4
          have hBmax : max B 0 = B := by omega
          rw [hBmax]
          omega

/-- C1: for every chunk list and every non-negative character budget `B`
(the request schema enforces `max_context_chars >= 500`), the context
builder produces context chunks whose text lengths sum to at most `B`,
and the citation indices of the context chunks — mirrored by the
`chunk_index` fields of the returned references — are exactly
`1, 2, ..., k`: contiguous, starting at 1, strictly increasing in
selection order. -/
theorem c1_context_budget_and_citation_indices (chunks : List RetrievedChunk) (B : ℤ)
    (hB : 0 ≤ B) :
    ((buildContext 0 B chunks).1.map Prod.fst
        = List.range' 1 (buildContext 0 B chunks).1.length)
    ∧ ((buildContext 0 B chunks).2.map RAGAnswerReference.chunk_index
        = List.range' 1 (buildContext 0 B chunks).2.length)
    ∧ (((buildContext 0 B chunks).1.map (fun p => (p.2.length : ℤ))).sum ≤ B) := by
  obtain ⟨h1, h2, h3, h4⟩ := buildContext_spec chunks 0 B
  refine ⟨h1, ?_, ?_⟩
  · rw [h2, h3, h1]
  · rw [max_eq_left hB] at h4
    exact h4

/-- Witness for C1: budget 500 and two one-character chunks give citation
indices `[1, 2]` and total context length 2 ≤ 500. -/
theorem c1_context_budget_and_citation_indices_witness :
    (0 : ℤ) ≤ 500
    ∧ (((buildContext 0 500
          [{ content := some ['x'] }, { content := some ['y'] }]).1.map Prod.fst
        = List.range' 1 (buildContext 0 500
            [{ content := some ['x'] }, { content := some ['y'] }]).1.length)
    ∧ ((buildContext 0 500
          [{ content := some ['x'] }, { content := some ['y'] }]).2.map
            RAGAnswerReference.chunk_index
        = List.range' 1 (buildContext 0 500
            [{ content := some ['x'] }, { content := some ['y'] }]).2.length)
    ∧ (((buildContext 0 500
          [{ content := some ['x'] }, { content := some ['y'] }]).1.map
            (fun p => (p.2.length : ℤ))).sum ≤ 500)) :=
  ⟨by norm_num,
   c1_context_budget_and_citation_indices
     [{ content := some ['x'] }, { content := some ['y'] }] 500 (by norm_num)⟩

lemma buildContext_nonpos (rest : List RetrievedChunk) (idx : ℕ) (r : ℤ) (hr : r ≤ 0) :
    buildContext idx r rest = ([], []) := by
  cases rest with
  | nil => rfl
  | cons c l => simp [buildContext, if_pos hr, hr]

lemma buildContext_truncation (idx : ℕ) (r : ℤ) (c : RetrievedChunk)
    (rest : List RetrievedChunk) (hr : 0 < r)
    (hne : pyStrip (c.content.getD []) ≠ [])
    (hlen : r < ((pyStrip (c.content.getD [])).length : ℤ)) :
    buildContext idx r (c :: rest)
      = ([(idx + 1, (pyStrip (c.content.getD [])).take r.toNat)],
         [mkReference (idx + 1) c])
    ∧ ((pyStrip (c.content.getD [])).take r.toNat).length = r.toNat := by
  have h0 : ¬ (r ≤ 0) := not_le.mpr hr
  have htr : truncTo r (pyStrip (c.content.getD []))
      = (pyStrip (c.content.getD [])).take r.toNat := by
    unfold truncTo
    rw [if_pos hlen]
  have hlen' : ((pyStrip (c.content.getD [])).take r.toNat).length = r.toNat := by
    rw [List.length_take]
    omega
  refine ⟨?_, hlen'⟩
  simp only [buildContext, if_neg h0, if_neg hne, htr, hlen']
  have hzero : r - (r.toNat : ℤ) = 0 := by omega
  rw [hzero, buildContext_nonpos rest (idx + 1) 0 le_rfl]

lemma dropWhile_isWhitespace_replicate (n : ℕ) (c : Char) (h : c.isWhitespace = false) :
    List.dropWhile Char.isWhitespace (List.replicate n c) = List.replicate n c := by
  cases n with
  | zero => rfl
  | succ n => simp [List.replicate_succ, List.dropWhile_cons, h]

lemma pyStrip_replicate (n : ℕ) (c : Char) (h : c.isWhitespace = false) :
    pyStrip (List.replicate n c) = List.replicate n c := by
  unfold pyStrip
  rw [dropWhile_isWhitespace_replicate n c h, List.reverse_replicate,
    dropWhile_isWhitespace_replicate n c h, List.reverse_replicate]

/-- First chunk of the spec example: similarity 0.9, content 3000 `A`s. -/
def chunkA : RetrievedChunk :=
  { id := some ['a', '1'], content := some (List.replicate 3000 'A'),
    similarity := some (9 / 10) }

/-- Second chunk of the spec example: similarity 0.1, content `"B"`. -/
def chunkB : RetrievedChunk :=
  { id := some ['b', '1'], content := some ['B'], similarity := some (1 / 10) }

/-- C3: when the non-empty stripped content of a chunk exceeds the positive
remaining budget `r`, the builder includes exactly that chunk, truncated
to exactly `r` characters, and it is the last chunk included (the rest of
the list contributes nothing); in particular, for retrieval results
`[{sim 0.9, "A"×3000}, {sim 0.1, "B"}]` with threshold 0.2 and
`max_context_chars = 10`, the pipeline produces exactly one reference
with `chunk_index = 1` and a 10-character context. -/
theorem c3_truncated_chunk_is_last :
    (∀ (idx : ℕ) (r : ℤ) (c : RetrievedChunk) (rest : List RetrievedChunk),
        0 < r → pyStrip (c.content.getD []) ≠ [] →
        r < ((pyStrip (c.content.getD [])).length : ℤ) →
        buildContext idx r (c :: rest)
          = ([(idx + 1, (pyStrip (c.content.getD [])).take r.toNat)],
             [mkReference (idx + 1) c])
        ∧ ((pyStrip (c.content.getD [])).take r.toNat).length = r.toNat)
    ∧ ragAnswerContext [chunkA, chunkB] (1 / 5) 6 10
      = ([(1, List.replicate 10 'A')], [⟨1, ['a', '1'], none, some (9 / 10)⟩]) := by
  constructor
  · intro idx r c rest hr hne hlen
    exact buildContext_truncation idx r c rest hr hne hlen
  · have ha : (1 / 5 : ℚ) ≤ simOf chunkA := by norm_num [simOf, chunkA]
    have hb : ¬ ((1 / 5 : ℚ) ≤ simOf chunkB) := by norm_num [simOf, chunkB]
    have ha' : decide ((1 / 5 : ℚ) ≤ simOf chunkA) = true := decide_eq_true ha
    have hb' : decide ((1 / 5 : ℚ) ≤ simOf chunkB) = false := decide_eq_false hb
    have hfilter : filterBySim (1 / 5) [chunkA, chunkB] = [chunkA] := by
      unfold filterBySim
      simp only [List.filter, ha', hb']
    have hsel : selectChunks (1 / 5) 6 [chunkA, chunkB] = [chunkA] := by
      unfold selectChunks
      rw [hfilter]
      rfl
    have hstripA : pyStrip (chunkA.content.getD []) = List.replicate 3000 'A' := by
      show pyStrip (List.replicate 3000 'A') = List.replicate 3000 'A'
      exact pyStrip_replicate 3000 'A' (by decide)
    have hne : pyStrip (chunkA.content.getD []) ≠ [] := by
      rw [hstripA]
      intro hcontra
      have hl := congrArg List.length hcontra
      rw [List.length_replicate, List.length_nil] at hl
      exact absurd hl (by norm_num)
    have hlen : (10 : ℤ) < ((pyStrip (chunkA.content.getD [])).length : ℤ) := by
      rw [hstripA, List.length_replicate]
      norm_num
    obtain ⟨heq, -⟩ := buildContext_truncation 0 10 chunkA [] (by norm_num) hne hlen
    have hmin : min ((10 : ℤ).toNat) 3000 = 10 := by omega
    have htake : (pyStrip (chunkA.content.getD [])).take (10 : ℤ).toNat
        = List.replicate 10 'A' := by
      rw [hstripA, List.take_replicate, hmin]
    have hmk : mkReference (0 + 1) chunkA = ⟨1, ['a', '1'], none, some (9 / 10)⟩ := rfl
    show buildContext 0 10 (selectChunks (1 / 5) 6 [chunkA, chunkB]) = _
    rw [hsel, heq, htake, hmk]

/-- A three-character chunk used by the C3 witness. -/
def chunkXYZ : RetrievedChunk :=
  { content := some ['X', 'Y', 'Z'] }

/-- Witness for C3: with budget 2 the chunk `"XYZ"` is included truncated
to exactly 2 characters and is the only chunk included. -/
theorem c3_truncated_chunk_is_last_witness :
    (0 : ℤ) < 2
    ∧ pyStrip (chunkXYZ.content.getD []) ≠ []
    ∧ (2 : ℤ) < ((pyStrip (chunkXYZ.content.getD [])).length : ℤ)
    ∧ (buildContext 0 2 [chunkXYZ]
        = ([(0 + 1, (pyStrip (chunkXYZ.content.getD [])).take (2 : ℤ).toNat)],
           [mkReference (0 + 1) chunkXYZ])
      ∧ ((pyStrip (chunkXYZ.content.getD [])).take (2 : ℤ).toNat).length = (2 : ℤ).toNat) :=
  ⟨by norm_num, by decide, by decide,
   c3_truncated_chunk_is_last.1 0 2 chunkXYZ [] (by norm_num) (by decide) (by decide)⟩

end LlmQueryApi
